import Mathlib

/-!
Verification of the distance-calculator application (src/src/App.tsx).

The operative logic is embedded shallowly:
* the reference-object table `KNOWN_OBJECTS` (App.tsx lines 6-11);
* the per-prediction body of `detectObjects` (lines 87-142): overlay
  drawing and distance update;
* the self-rescheduling frame loop and the effect that (re)starts it
  (lines 144-151 and 147-151), as a small executable state machine;
* the camera-effect cleanup (lines 58-66);
* the two initialization effects and their error messages (lines 24-67).

Numbers are modelled as rationals (the JS values in play are exact
decimals) and `Math.round` as Mathlib's `round`, which agrees with the
JS function: both map `x` to `⌊x + 1/2⌋`.
-/

/-- One entry of the reference table: `width` is the real-world width in
centimeters, `cocoClass` the detector class label it corresponds to
(App.tsx lines 6-11). -/
structure KnownObject where
  width : ℚ
  cocoClass : String
deriving DecidableEq

/-- The table `KNOWN_OBJECTS` of App.tsx lines 6-11, as an association
list in source order. `17/2` is the literal `8.5`. -/
def KNOWN_OBJECTS : List (String × KnownObject) :=
  [("visage humain", ⟨15, "person"⟩),
   ("feuille A4", ⟨21, "book"⟩),
   ("carte bancaire", ⟨17/2, "cell phone"⟩),
   ("téléphone portable", ⟨7, "cell phone"⟩)]

/-- Lookup of a selection key in the table, `KNOWN_OBJECTS[key]`. -/
def lookupKnownObject (k : String) : Option KnownObject :=
  KNOWN_OBJECTS.lookup k

/-- A bounding box `[x, y, width, height]` as destructured from
`prediction.bbox` (App.tsx line 88). -/
structure BBox where
  x : ℚ
  y : ℚ
  width : ℚ
  height : ℚ
deriving DecidableEq

/-- One detector output (`cocoSsd.DetectedObject`): class label,
confidence score and bounding box. -/
structure Prediction where
  «class» : String
  score : ℚ
  bbox : BBox
deriving DecidableEq

/-- The calibration constant `focalLength = 500` (App.tsx line 138). -/
def focalLength : ℚ := 500

/-- Lines 136-141 of App.tsx for one prediction: if the prediction's
class equals the selected object's `cocoClass`, overwrite the stored
distance with `Math.round(knownWidth * focalLength / width)`, else leave
it.  There is no guard on `width`: JS division is total (width `0`
yields `Infinity`) and rational division is likewise total (width `0`
yields `0`); neither raises, and the branch still stores a value.
Theorems about the `width = 0` case therefore use only the fact that a
value is stored, never which value. -/
def stepDistance (obj : KnownObject) (distance : Option ℤ) (p : Prediction) :
    Option ℤ :=
  if p.«class» == obj.cocoClass then
    some (round (obj.width * focalLength / p.bbox.width))
  else
    distance

/-- The `predictions.forEach` distance effect of `detectObjects`
(App.tsx lines 87-142), folded over the prediction list in detector
order, starting from the previously stored distance.  The selection key
comes from the `<select>` element, whose options are exactly the table's
keys, so the `none` branch is unreachable in the application; it is
modelled as leaving the state unchanged. -/
def detectObjects (selectedObject : String) (predictions : List Prediction)
    (distance : Option ℤ) : Option ℤ :=
  match lookupKnownObject selectedObject with
  | some obj => predictions.foldl (stepDistance obj) distance
  | none => distance

/-- The matching test of App.tsx line 136, as a Boolean predicate. -/
def matchesSel (obj : KnownObject) (p : Prediction) : Bool :=
  p.«class» == obj.cocoClass

/-- The text label drawn for every prediction
(App.tsx line 128): `` `${prediction.class} (${Math.round(prediction.score * 100)}%)` ``. -/
def labelText (p : Prediction) : String :=
  p.«class» ++ " (" ++ toString (round (p.score * 100)) ++ "%)"

/-- One drawn overlay element: the outlined box and its text label
(App.tsx lines 87-133).  Every prediction is drawn, with no condition on
the selected object. -/
structure OverlayBox where
  box : BBox
  text : String
deriving DecidableEq

/-- The overlay produced by the `forEach` of App.tsx lines 87-133: one
outlined box with label per prediction, in order. -/
def renderOverlay (predictions : List Prediction) : List OverlayBox :=
  predictions.map (fun p => ⟨p.bbox, labelText p⟩)

/-!
Frame-loop model (App.tsx lines 69-73, 144-151).

Each render of `App` creates a fresh `detectObjects` closure capturing
the `selectedObject` state value of that render; the closure reschedules
*itself* via `requestAnimationFrame(detectObjects)` (line 144), so a
scheduled chain keeps the selection it captured forever.  The effect at
lines 147-151 has dependencies `[isStreaming, model, selectedObject]`
and no cleanup: whenever it (re)runs with both `isStreaming` and `model`
available it invokes the current render's `detectObjects`, starting a
new chain without cancelling any previously scheduled one.  A chain is
modelled by the selection string its closure captured.
-/

/-- The loop-relevant application state: the current `selectedObject`
React state, the availability flags read by the effect's guard
(line 148), the live self-rescheduling chains (each recorded as the
selection its closure captured), and the shared stored distance. -/
structure LoopState where
  selectedObject : String
  isStreaming : Bool
  model : Bool
  chains : List String
  distance : Option ℤ
deriving DecidableEq

/-- One run of the effect of App.tsx lines 147-151: if `isStreaming &&
model`, call the current render's `detectObjects`, i.e. start a chain
that captured the current selection; otherwise do nothing.  Nothing is
cancelled (the effect has no cleanup). -/
def runLoopEffect (s : LoopState) : LoopState :=
  if s.isStreaming && s.model then
    { s with chains := s.chains ++ [s.selectedObject] }
  else
    s

/-- A user selection change (the `<select>` handler at line 192):
`setSelectedObject` updates the state, and since `selectedObject` is in
the effect's dependency array, the effect re-runs on the next render. -/
def selectObject (k : String) (s : LoopState) : LoopState :=
  runLoopEffect { s with selectedObject := k }

/-- One iteration of chain `i`: its `detectObjects` body runs with the
selection captured by its closure — detection, overlay and distance
update (lines 69-142) — and then reschedules the same closure
(line 144), so the chain survives with the same captured selection.
A missing index is a no-op. -/
def fireChain (i : Nat) (preds : List Prediction) (s : LoopState) :
    LoopState :=
  match s.chains.get? i with
  | some sel => { s with distance := detectObjects sel preds s.distance }
  | none => s

/-- The state after the camera and the model both became available, with
the default selection `visage humain` (line 17) and the first effect run
having started the initial chain. -/
def loopReady : LoopState :=
  runLoopEffect ⟨"visage humain", true, true, [], none⟩

/-!
Teardown model (App.tsx lines 58-66).

The camera effect's cleanup: if `videoRef.current?.srcObject` is set,
stop every track of the stream; if `animationFrameRef.current` is
truthy, cancel it.  Neither `srcObject` nor the stored handle is cleared
afterwards.  A track is modelled by its stopped flag; `track.stop()` and
`cancelAnimationFrame` never throw in the browser (stopping a stopped
track and cancelling a stale handle are no-ops), so the cleanup is a
total function; the `stopCalls`/`cancelCalls` counters record how many
stop/cancel calls it issues. -/

/-- State read by the cleanup: the stream's tracks (`none` = no
`srcObject`), the stored animation-frame handle (`0` is falsy in JS),
and counters of issued `stop`/`cancelAnimationFrame` calls. -/
structure TeardownState where
  tracks : Option (List Bool)
  rafHandle : Option Nat
  stopCalls : Nat
  cancelCalls : Nat
deriving DecidableEq

/-- The cleanup function of App.tsx lines 58-66. -/
def cleanup (s : TeardownState) : TeardownState :=
  let s1 :=
    match s.tracks with
    | some ts =>
        { s with tracks := some (ts.map fun _ => true),
                 stopCalls := s.stopCalls + ts.length }
    | none => s
  match s1.rafHandle with
  | some h =>
      if h == 0 then s1 else { s1 with cancelCalls := s1.cancelCalls + 1 }
  | none => s1

/-!
Initialization and error model (App.tsx lines 16-67, 147-151, 165-169).

Two mount-only effects (empty dependency arrays, so neither runs again)
initialize the app: `loadModel` (lines 24-37) and `startCamera`
(lines 39-54).  Each catches its own async failure and stores a fixed
French message in the `error` state, which the view renders verbatim
(lines 165-169); `startCamera` on success clears `error` and sets
`isStreaming`.  No other code writes `error`: the per-frame
`detectObjects` has no catch and never calls `setError`.  The two
effects race, so both completion orders are modelled.
-/

/-- The message stored when `cocoSsd.load()` fails (line 31). -/
def modelLoadErrorMsg : String :=
  "Erreur de chargement du modèle de détection"

/-- The message stored when `getUserMedia` fails (line 51);
`\x27` is the apostrophe. -/
def cameraErrorMsg : String := "Erreur d\x27accès à la caméra"

/-- The initialization-relevant React state: whether the model loaded,
whether the stream started, the `error` text, and the current
selection. -/
structure AppInit where
  model : Bool
  isStreaming : Bool
  error : String
  selectedObject : String
deriving DecidableEq

/-- The state at mount: no model, no stream, empty error, default
selection (lines 16-19). -/
def initialAppState : AppInit := ⟨false, false, "", "visage humain"⟩

/-- The model-loading effect (lines 24-37): on success store the model,
on failure store the fixed message. -/
def loadModel (ok : Bool) (s : AppInit) : AppInit :=
  if ok then { s with model := true } else { s with error := modelLoadErrorMsg }

/-- The camera effect (lines 39-54): on success, if the video element is
mounted, attach the stream and clear the error; on failure store the
fixed message. -/
def startCamera (ok : Bool) (videoPresent : Bool) (s : AppInit) : AppInit :=
  if ok then
    if videoPresent then { s with isStreaming := true, error := "" } else s
  else
    { s with error := cameraErrorMsg }

/-- The selection handler (line 192): updates the selection and nothing
else. -/
def setSelection (k : String) (s : AppInit) : AppInit :=
  { s with selectedObject := k }

/-- Both mount effects run exactly once (empty dependency arrays), in
either completion order. -/
def runInit (modelFirst mok cok vp : Bool) : AppInit :=
  if modelFirst then
    startCamera cok vp (loadModel mok initialAppState)
  else
    loadModel mok (startCamera cok vp initialAppState)

/-- A whole run: the one-shot initialization followed by any sequence of
user selection changes (the only other state writes that touch this
record: `detectObjects` writes only `distance`/`detectedObjects`). -/
def runApp (modelFirst mok cok vp : Bool) (selections : List String) :
    AppInit :=
  selections.foldl (fun s k => setSelection k s) (runInit modelFirst mok cok vp)

/- Helper lemmas about the distance fold. -/

/-- A prediction that does not match leaves the stored distance
unchanged. -/
theorem stepDistance_no_match (obj : KnownObject) (d : Option ℤ)
    (p : Prediction) (h : matchesSel obj p = false) :
    stepDistance obj d p = d := by
  simp [stepDistance, matchesSel] at *
  simp [h]

/-- If no prediction in the list matches, the fold leaves the stored
distance unchanged. -/
theorem foldl_stepDistance_no_match (obj : KnownObject)
    (preds : List Prediction) (d : Option ℤ)
    (h : preds.filter (matchesSel obj) = []) :
    preds.foldl (stepDistance obj) d = d := by
  induction preds generalizing d with
  | nil => rfl
  | cons p rest ih =>
    rw [List.filter_cons] at h
    by_cases hm : matchesSel obj p
    · simp [hm] at h
    · simp only [hm, Bool.false_eq_true, if_false] at h
      simp only [List.foldl_cons, stepDistance_no_match obj d p (by simpa using hm)]
      exact ih d h

/-- The fold ends at the distance computed from the last matching
prediction. -/
theorem foldl_stepDistance_last_match (obj : KnownObject)
    (preds : List Prediction) (d : Option ℤ)
    (h : preds.filter (matchesSel obj) ≠ []) :
    preds.foldl (stepDistance obj) d =
      some (round (obj.width * focalLength /
        ((preds.filter (matchesSel obj)).getLast h).bbox.width)) := by
  induction preds generalizing d with
  | nil => simp at h
  | cons p rest ih =>
    by_cases hm : matchesSel obj p
    · have hstep : stepDistance obj d p =
          some (round (obj.width * focalLength / p.bbox.width)) := by
        simp only [matchesSel] at hm
        simp [stepDistance, hm]
      by_cases hr : rest.filter (matchesSel obj) = []
      · have hfil : (p :: rest).filter (matchesSel obj) = [p] := by
          simp [List.filter_cons, hm, hr]
        have hlast : ((p :: rest).filter (matchesSel obj)).getLast h = p := by
          rw [List.getLast_congr h (by simp) hfil]
          rfl
        rw [hlast]
        simp only [List.foldl_cons]
        rw [foldl_stepDistance_no_match obj rest _ hr, hstep]
      · have hfil : (p :: rest).filter (matchesSel obj) =
            p :: rest.filter (matchesSel obj) := by
          simp [List.filter_cons, hm]
        have hlast : ((p :: rest).filter (matchesSel obj)).getLast h =
            (rest.filter (matchesSel obj)).getLast hr := by
          rw [List.getLast_congr h (by simp) hfil]
          exact List.getLast_cons hr
        rw [hlast]
        simp only [List.foldl_cons]
        exact ih (stepDistance obj d p) hr
    · have hfil : (p :: rest).filter (matchesSel obj) =
          rest.filter (matchesSel obj) := by
        simp [List.filter_cons, hm]
      have hr : rest.filter (matchesSel obj) ≠ [] := hfil ▸ h
      have hlast : ((p :: rest).filter (matchesSel obj)).getLast h =
          (rest.filter (matchesSel obj)).getLast hr :=
        List.getLast_congr h hr hfil
      rw [hlast]
      simp only [List.foldl_cons, stepDistance_no_match obj d p (by simpa using hm)]
      exact ih d hr

/- Claim theorems: frame-processing logic. -/

/-- C1: for every prediction whose class equals the selected reference
object's `cocoClass` and whose bounding-box width is positive, the
stored distance becomes `round(realWidthCm * focalLength / width)` with
`focalLength = 500`; in particular `realWidthCm = 15` and `width = 100`
give distance `75`. -/
theorem c1_distance_formula (sel : String) (obj : KnownObject)
    (d : Option ℤ) (p : Prediction)
    (hsel : lookupKnownObject sel = some obj)
    (hcls : p.«class» = obj.cocoClass)
    (hw : 0 < p.bbox.width) :
    stepDistance obj d p =
        some (round (obj.width * focalLength / p.bbox.width)) ∧
    focalLength = 500 ∧
    round ((15 : ℚ) * focalLength / 100) = 75 := by
  refine ⟨?_, rfl, ?_⟩
  · simp [stepDistance, hcls]
  · norm_num [round_eq, focalLength]

/-- Witness for C1: the face entry (`width = 15`, class `person`) and a
`person` detection of box width `100` yield distance
`round(15 * 500 / 100) = 75`. -/
theorem c1_distance_formula_witness :
    stepDistance ⟨15, "person"⟩ none ⟨"person", 1/2, ⟨0, 0, 100, 50⟩⟩ =
        some (round ((15 : ℚ) * focalLength / 100)) ∧
    round ((15 : ℚ) * focalLength / 100) = 75 := by
  have h := c1_distance_formula "visage humain" ⟨15, "person"⟩ none
    ⟨"person", 1/2, ⟨0, 0, 100, 50⟩⟩ rfl rfl (by decide)
  exact ⟨h.1, h.2.2⟩

/-- C2 (failing input): the code has no guard on the bounding-box width;
a matching detection of width `0` still reaches the distance assignment,
so the stored distance is set (in JS, `(15 * 500) / 0` is `Infinity` and
`setDistance(Math.round(Infinity))` stores it).  This refutes the
exclusion the claim demands. -/
theorem c2_zero_width_sets_distance :
    (detectObjects "visage humain" [⟨"person", 9/10, ⟨0, 0, 0, 0⟩⟩]
        none).isSome = true := rfl

/-- C3: with a valid selection, the distance after a frame is the one
computed from the last prediction (in detector order) whose class equals
the selected object's `cocoClass`; non-matching predictions contribute
nothing. -/
theorem c3_last_match_wins (sel : String) (obj : KnownObject)
    (preds ms : List Prediction) (d : Option ℤ)
    (hsel : lookupKnownObject sel = some obj)
    (hms : preds.filter (matchesSel obj) = ms)
    (hne : ms ≠ []) :
    detectObjects sel preds d =
      some (round (obj.width * focalLength / (ms.getLast hne).bbox.width)) := by
  subst hms
  unfold detectObjects
  rw [hsel]
  exact foldl_stepDistance_last_match obj preds d hne

/-- Witness for C3: the spec's example — detections
`[{class: "book", width: 50}, {class: "person", width: 80}]` with the
selection `visage humain` (class `person`) — yields the distance of the
second entry, `round(15 * 500 / 80)`. -/
theorem c3_last_match_wins_witness :
    detectObjects "visage humain"
        [⟨"book", 1/2, ⟨0, 0, 50, 50⟩⟩, ⟨"person", 1/2, ⟨0, 0, 80, 80⟩⟩]
        none =
      some (round ((15 : ℚ) * focalLength / 80)) :=
  c3_last_match_wins "visage humain" ⟨15, "person"⟩
    [⟨"book", 1/2, ⟨0, 0, 50, 50⟩⟩, ⟨"person", 1/2, ⟨0, 0, 80, 80⟩⟩]
    [⟨"person", 1/2, ⟨0, 0, 80, 80⟩⟩] none rfl rfl (List.cons_ne_nil _ _)

/-- C4: on a frame none of whose predictions matches the selected
object's class, the stored distance is left unchanged (the code's fixed
no-match policy; it is never cleared). -/
theorem c4_no_match_leaves_distance (sel : String) (obj : KnownObject)
    (preds : List Prediction) (d : Option ℤ)
    (hsel : lookupKnownObject sel = some obj)
    (hnone : preds.filter (matchesSel obj) = []) :
    detectObjects sel preds d = d := by
  unfold detectObjects
  rw [hsel]
  exact foldl_stepDistance_no_match obj preds d hnone

/-- Witness for C4: a frame containing only a `book` detection leaves a
previously stored distance of `42` untouched under the selection
`visage humain`. -/
theorem c4_no_match_leaves_distance_witness :
    detectObjects "visage humain" [⟨"book", 1/2, ⟨0, 0, 50, 50⟩⟩]
        (some 42) = some 42 :=
  c4_no_match_leaves_distance "visage humain" ⟨15, "person"⟩
    [⟨"book", 1/2, ⟨0, 0, 50, 50⟩⟩] (some 42) rfl rfl

/-- C5: every prediction of a frame is drawn on the overlay with its
bounding box and the label `"<class> (<round(score*100)>%)"`, with no
condition on the selected reference (the overlay map is applied to the
whole prediction list); a confidence of `0.873` renders as `87%`. -/
theorem c5_overlay_labels (preds : List Prediction) (p : Prediction)
    (hp : p ∈ preds) :
    OverlayBox.mk p.bbox
        (p.«class» ++ " (" ++ toString (round (p.score * 100)) ++ "%)")
      ∈ renderOverlay preds ∧
    (renderOverlay preds).length = preds.length ∧
    labelText ⟨"person", 873/1000, ⟨0, 0, 10, 10⟩⟩ = "person (87%)" := by
  refine ⟨List.mem_map_of_mem _ hp, by simp [renderOverlay], ?_⟩
  have h87 : round ((873 / 1000 : ℚ) * 100) = 87 := by norm_num [round_eq]
  simp only [labelText, h87]
  decide

/-- Witness for C5: a one-prediction frame is drawn with its box and the
label `"person (87%)"`. -/
theorem c5_overlay_labels_witness :
    OverlayBox.mk (⟨0, 0, 10, 10⟩ : BBox) "person (87%)"
      ∈ renderOverlay [⟨"person", 873/1000, ⟨0, 0, 10, 10⟩⟩] ∧
    labelText ⟨"person", 873/1000, ⟨0, 0, 10, 10⟩⟩ = "person (87%)" := by
  have h := c5_overlay_labels [⟨"person", 873/1000, ⟨0, 0, 10, 10⟩⟩]
    ⟨"person", 873/1000, ⟨0, 0, 10, 10⟩⟩ (List.mem_singleton.mpr rfl)
  exact ⟨h.2.2 ▸ h.1, h.2.2⟩

/-- C10: both `carte bancaire` (width `8.5`) and `téléphone portable`
(width `7`) map to the detector class `cell phone`; a fixed `cell phone`
detection of positive width `w` therefore yields
`round(8.5 * 500 / w)` under the first selection and `round(7 * 500 / w)`
under the second (at `w = 100`: `43` versus `35`), and no table entry
uses a distinct `credit card` class. -/
theorem c10_shared_cell_phone_class :
    lookupKnownObject "carte bancaire" = some ⟨17/2, "cell phone"⟩ ∧
    lookupKnownObject "téléphone portable" = some ⟨7, "cell phone"⟩ ∧
    (∀ (d : Option ℤ) (p : Prediction), p.«class» = "cell phone" →
      0 < p.bbox.width →
      detectObjects "carte bancaire" [p] d =
          some (round ((17/2 : ℚ) * focalLength / p.bbox.width)) ∧
      detectObjects "téléphone portable" [p] d =
          some (round ((7 : ℚ) * focalLength / p.bbox.width))) ∧
    (round ((17/2 : ℚ) * focalLength / 100) = 43 ∧
      round ((7 : ℚ) * focalLength / 100) = 35) ∧
    ∀ e ∈ KNOWN_OBJECTS, e.2.cocoClass ≠ "credit card" := by
  refine ⟨rfl, rfl, ?_, ⟨?_, ?_⟩, by decide⟩
  · intro d p hc hw
    constructor
    · have hl : lookupKnownObject "carte bancaire" =
          some ⟨17/2, "cell phone"⟩ := rfl
      unfold detectObjects
      rw [hl]
      simp [stepDistance, hc]
    · have hl : lookupKnownObject "téléphone portable" =
          some ⟨7, "cell phone"⟩ := rfl
      unfold detectObjects
      rw [hl]
      simp [stepDistance, hc]
  · norm_num [round_eq, focalLength]
  · norm_num [round_eq, focalLength]

/-- Witness for C10: a `cell phone` detection of width `100` gives
`round(8.5 * 500 / 100)` under `carte bancaire` and
`round(7 * 500 / 100)` under `téléphone portable`. -/
theorem c10_shared_cell_phone_class_witness :
    detectObjects "carte bancaire"
        [⟨"cell phone", 1/2, ⟨0, 0, 100, 100⟩⟩] none =
      some (round ((17/2 : ℚ) * focalLength / 100)) ∧
    detectObjects "téléphone portable"
        [⟨"cell phone", 1/2, ⟨0, 0, 100, 100⟩⟩] none =
      some (round ((7 : ℚ) * focalLength / 100)) :=
  c10_shared_cell_phone_class.2.2.1 none
    ⟨"cell phone", 1/2, ⟨0, 0, 100, 100⟩⟩ rfl (by decide)

/- Helper lemmas about the loop model. -/

/-- Firing a chain never adds or removes a chain: the iteration
reschedules exactly itself. -/
theorem fireChain_chains (i : Nat) (preds : List Prediction)
    (s : LoopState) : (fireChain i preds s).chains = s.chains := by
  unfold fireChain
  cases s.chains.get? i <;> rfl

/-- Firing the chain at a valid index updates the distance through
`detectObjects` with the selection that chain captured. -/
theorem fireChain_distance (i : Nat) (preds : List Prediction)
    (s : LoopState) (sel : String) (h : s.chains.get? i = some sel) :
    (fireChain i preds s).distance = detectObjects sel preds s.distance := by
  unfold fireChain
  rw [h]

/-- With the stream and the model available, a selection change updates
the selection and appends one chain capturing it, cancelling nothing. -/
theorem selectObject_eq (k : String) (s : LoopState)
    (hs : s.isStreaming = true) (hm : s.model = true) :
    selectObject k s =
      { s with selectedObject := k, chains := s.chains ++ [k] } := by
  unfold selectObject runLoopEffect
  simp [hs, hm]

/- Claim theorems: frame loop. -/

/-- C6 is false as stated: from the ready state (one active chain for
the default selection), changing the selection re-triggers the effect,
which starts a second chain without cancelling the first — two
detection/render chains are then active at once. -/
theorem c6_parallel_chains_counterexample :
    (selectObject "feuille A4" loopReady).chains =
      ["visage humain", "feuille A4"] ∧
    ¬(selectObject "feuille A4" loopReady).chains.length ≤ 1 := by decide

/-- C6 amended: within one chain the loop is sequential — each iteration
reschedules exactly itself, leaving the set of chains unchanged — but a
re-trigger of the loop-starting effect while the stream and model are
available (e.g. a selection change) appends a new concurrent chain
without cancelling any existing one. -/
theorem c6_chain_growth (s : LoopState) (i : Nat)
    (preds : List Prediction) (k : String)
    (hs : s.isStreaming = true) (hm : s.model = true) :
    (fireChain i preds s).chains = s.chains ∧
    (selectObject k s).chains = s.chains ++ [k] := by
  refine ⟨fireChain_chains i preds s, ?_⟩
  rw [selectObject_eq k s hs hm]

/-- Witness for the amended C6, at the ready state. -/
theorem c6_chain_growth_witness :
    (fireChain 0 [] loopReady).chains = loopReady.chains ∧
    (selectObject "feuille A4" loopReady).chains =
      loopReady.chains ++ ["feuille A4"] :=
  c6_chain_growth loopReady 0 [] "feuille A4" rfl rfl

/-- C7 is false as stated: with one chain for `carte bancaire` active,
selecting `téléphone portable` leaves the old chain scheduled; its next
iteration, on a `cell phone` detection of width `100`, stores
`round(8.5 * 500 / 100) = 43` — the stale selection's distance — while
the new selection would give `round(7 * 500 / 100) = 35`. -/
theorem c7_stale_selection_counterexample :
    (fireChain 0 [⟨"cell phone", 9/10, ⟨0, 0, 100, 100⟩⟩]
        (selectObject "téléphone portable"
          ⟨"carte bancaire", true, true, ["carte bancaire"], none⟩)).distance
      = some 43 ∧
    round ((7 : ℚ) * focalLength / 100) = 35 ∧ (43 : ℤ) ≠ 35 := by
  refine ⟨?_, by norm_num [round_eq, focalLength], by decide⟩
  have h : (fireChain 0 [⟨"cell phone", 9/10, ⟨0, 0, 100, 100⟩⟩]
      (selectObject "téléphone portable"
        ⟨"carte bancaire", true, true, ["carte bancaire"], none⟩)).distance
      = some (round ((17/2 : ℚ) * focalLength / 100)) := rfl
  rw [h]
  norm_num [round_eq, focalLength]

/-- C7 amended: a selection change cancels nothing; the chain the
re-triggered effect starts computes with the new selection, but every
previously scheduled chain survives and its subsequent iterations keep
computing with the stale selection captured by its closure. -/
theorem c7_new_chain_uses_new_selection_old_chain_stale (s : LoopState)
    (k : String) (preds : List Prediction) (i : Nat)
    (hs : s.isStreaming = true) (hm : s.model = true)
    (hi : i < s.chains.length) :
    (fireChain s.chains.length preds (selectObject k s)).distance =
        detectObjects k preds s.distance ∧
    (fireChain i preds (selectObject k s)).distance =
        detectObjects (s.chains.get ⟨i, hi⟩) preds s.distance ∧
    (fireChain i preds (selectObject k s)).chains = s.chains ++ [k] := by
  have hsel := selectObject_eq k s hs hm
  refine ⟨?_, ?_, ?_⟩
  · rw [hsel]
    refine fireChain_distance _ _ _ _ ?_
    show (s.chains ++ [k]).get? s.chains.length = some k
    rw [List.get?_eq_getElem?, List.getElem?_concat_length]
  · rw [hsel]
    refine fireChain_distance _ _ _ _ ?_
    show (s.chains ++ [k]).get? i = some (s.chains.get ⟨i, hi⟩)
    rw [List.get?_eq_getElem?, List.getElem?_append_left hi,
      List.getElem?_eq_getElem hi]
    rfl
  · rw [hsel, fireChain_chains]

/-- Witness for the amended C7: one `carte bancaire` chain, selection
changed to `téléphone portable`, a `cell phone` frame of width `100`:
the new chain computes with the new selection, the old chain with the
stale one, and both chains remain. -/
theorem c7_new_chain_uses_new_selection_old_chain_stale_witness :
    (fireChain 1 [⟨"cell phone", 9/10, ⟨0, 0, 100, 100⟩⟩]
        (selectObject "téléphone portable"
          ⟨"carte bancaire", true, true, ["carte bancaire"], none⟩)).distance =
      detectObjects "téléphone portable"
        [⟨"cell phone", 9/10, ⟨0, 0, 100, 100⟩⟩] none ∧
    (fireChain 0 [⟨"cell phone", 9/10, ⟨0, 0, 100, 100⟩⟩]
        (selectObject "téléphone portable"
          ⟨"carte bancaire", true, true, ["carte bancaire"], none⟩)).distance =
      detectObjects "carte bancaire"
        [⟨"cell phone", 9/10, ⟨0, 0, 100, 100⟩⟩] none ∧
    (fireChain 0 [⟨"cell phone", 9/10, ⟨0, 0, 100, 100⟩⟩]
        (selectObject "téléphone portable"
          ⟨"carte bancaire", true, true, ["carte bancaire"], none⟩)).chains =
      ["carte bancaire", "téléphone portable"] :=
  c7_new_chain_uses_new_selection_old_chain_stale
    ⟨"carte bancaire", true, true, ["carte bancaire"], none⟩
    "téléphone portable" [⟨"cell phone", 9/10, ⟨0, 0, 100, 100⟩⟩] 0
    rfl rfl (by decide)

/- Claim theorems: teardown. -/

/-- C8 is false as stated: with one live track and a pending handle, the
second cleanup invocation issues `stop` on the already-stopped track and
`cancelAnimationFrame` on the already-cancelled handle again (two stop
calls and two cancel calls in total, where the claim allows one each),
because the first invocation clears neither `srcObject` nor the stored
handle. -/
theorem c8_second_cleanup_counterexample :
    (cleanup (cleanup ⟨some [false], some 1, 0, 0⟩)).stopCalls = 2 ∧
    (cleanup (cleanup ⟨some [false], some 1, 0, 0⟩)).cancelCalls = 2 ∧
    ¬((cleanup (cleanup ⟨some [false], some 1, 0, 0⟩)).stopCalls = 1 ∧
      (cleanup (cleanup ⟨some [false], some 1, 0, 0⟩)).cancelCalls = 1) := by
  decide

/-- C8 amended: invoking the cleanup twice never throws (every operation
it performs is total), but the second invocation does attempt the work
again: it re-issues `stop` on each track of the still-referenced stream
and re-issues `cancelAnimationFrame` on the still-stored handle, since
the first invocation clears neither `srcObject` nor the handle. -/
theorem c8_double_cleanup_reattempts (ts : List Bool)
    (hdl sc cc : Nat) (hh : hdl ≠ 0) :
    cleanup ⟨some ts, some hdl, sc, cc⟩ =
      ⟨some (ts.map fun _ => true), some hdl, sc + ts.length, cc + 1⟩ ∧
    cleanup (cleanup ⟨some ts, some hdl, sc, cc⟩) =
      ⟨some (ts.map fun _ => true), some hdl,
        sc + ts.length + ts.length, cc + 1 + 1⟩ := by
  have hb : (hdl == 0) = false := by simpa using hh
  constructor
  · simp [cleanup, hb]
  · simp [cleanup, hb, List.map_map, Function.comp]

/-- Witness for the amended C8: one live track, handle `1`: the first
cleanup stops the track and cancels the handle; the second issues a
second stop call and a second cancel call. -/
theorem c8_double_cleanup_reattempts_witness :
    cleanup ⟨some [false], some 1, 0, 0⟩ = ⟨some [true], some 1, 1, 1⟩ ∧
    cleanup (cleanup ⟨some [false], some 1, 0, 0⟩) =
      ⟨some [true], some 1, 2, 2⟩ :=
  c8_double_cleanup_reattempts [false] 1 0 0 (by decide)

/-- Selection changes never touch the error text. -/
theorem foldl_setSelection_error (l : List String) (s : AppInit) :
    (l.foldl (fun s k => setSelection k s) s).error = s.error := by
  induction l generalizing s with
  | nil => rfl
  | cons k rest ih => exact ih (setSelection k s)

/- Claim theorem: error handling. -/

/-- C9: in every run — any init outcome and order, any user actions —
the surfaced error text is one of exactly two fixed static messages (or
empty): the detector-load failure and the camera-access failure, each
caught at its own async boundary; errors are non-fatal, as a selection
change still takes effect afterwards.  The mount effects have empty
dependency arrays, so neither initialization is retried. -/
theorem c9_two_error_messages (modelFirst mok cok vp : Bool)
    (selections : List String) :
    ((runApp modelFirst mok cok vp selections).error = "" ∨
     (runApp modelFirst mok cok vp selections).error = modelLoadErrorMsg ∨
     (runApp modelFirst mok cok vp selections).error = cameraErrorMsg) ∧
    modelLoadErrorMsg = "Erreur de chargement du modèle de détection" ∧
    cameraErrorMsg = "Erreur d\x27accès à la caméra" ∧
    ∀ k, (setSelection k (runApp modelFirst mok cok vp
        selections)).selectedObject = k := by
  refine ⟨?_, rfl, rfl, fun k => rfl⟩
  unfold runApp
  rw [foldl_setSelection_error]
  cases modelFirst <;> cases mok <;> cases cok <;> cases vp <;> decide
